import Mathlib

/-!
Shallow embedding of the `@sigaid/faces` renderer (AgentFace v5, TypeScript)
and of its normative constants, together with proofs settling the frozen
claims about it.

Conventions of the embedding:
- byte strings are `List Nat` with entries below 256;
- JavaScript 32-bit integer arithmetic is `Nat` with explicit `% 2^32`
  (the source applies `>>> 0` / bitwise coercions at exactly those points);
- JavaScript `number` values produced by the PRNG and by parameter
  extraction are modelled as exact rationals `ℚ`; every such value in the
  source is a dyadic rational combined by +, -, *, / so the rational model
  tracks the double-precision computation except for final-bit rounding,
  which none of the settled statements depends on;
- fallible operations do not occur in the modelled fragment.
-/

namespace Sigaid

/-- Two to the 32nd power, the modulus of JavaScript unsigned 32-bit coercion. -/
def M32 : Nat := 4294967296

/-! ## simpleHash (AgentFace.ts)

The synchronous digest used by the TypeScript implementation for
`fingerprint()` and for hashing short constructor inputs. -/

/-- One absorption step of `simpleHash`: `result[i % L] ^= data[i];
result[i % L] = (result[i % L] * 31 + data[i]) & 0xFF;`. -/
def simpleHashAbsorb (digestLength : Nat) (r : List Nat) (i d : Nat) : List Nat :=
  let j := i % digestLength
  let v := Nat.xor (r.getD j 0) d
  r.set j ((v * 31 + d) % 256)

/-- One mixing round of `simpleHash`: for each `i`,
`result[i] = ((result[i] * 17) ^ result[(i + 1) % L]) & 0xFF`, updating the
array in place (so `i = L - 1` reads the already-updated `result[0]`). -/
def simpleHashMixRound (digestLength : Nat) (r : List Nat) : List Nat :=
  (List.range digestLength).foldl
    (fun r i =>
      r.set i ((Nat.xor (r.getD i 0 * 17) (r.getD ((i + 1) % digestLength) 0)) % 256))
    r

/-- Embedding of `simpleHash(data, digestLength)` from AgentFace.ts:
a zero-initialised digest absorbs every data byte, then four in-place
mixing rounds run over the digest. -/
def simpleHash (data : List Nat) (digestLength : Nat) : List Nat :=
  let absorbed := (data.enum).foldl
    (fun r p => simpleHashAbsorb digestLength r p.1 p.2)
    (List.replicate digestLength 0)
  (List.range 4).foldl (fun r _ => simpleHashMixRound digestLength r) absorbed

/-! ## Normative tables (constants.ts) -/

/-- A colour palette entry, as in constants.ts. -/
structure Palette where
  name : String
  primary : String
  secondary : String
  accent : String
  glow : String
  bg : String
deriving DecidableEq, Repr, Inhabited

/-- The 20 colour palettes of constants.ts. -/
def PALETTES : List Palette := [
  ⟨"Cyan", "#00f5ff", "#0088aa", "#00ff88", "#00f5ff", "#0a0a12"⟩,
  ⟨"Matrix", "#00ff41", "#008f11", "#88ff88", "#00ff41", "#0a0f0a"⟩,
  ⟨"Purple", "#bf00ff", "#6600aa", "#ff00ff", "#bf00ff", "#0f0a12"⟩,
  ⟨"Gold", "#ffd700", "#ff8c00", "#ffee88", "#ffd700", "#12100a"⟩,
  ⟨"Ice", "#88ddff", "#4499cc", "#ffffff", "#88ddff", "#0a0c10"⟩,
  ⟨"Rose", "#ff0080", "#aa0055", "#ff88bb", "#ff0080", "#120a0c"⟩,
  ⟨"Emerald", "#00ff88", "#00aa55", "#88ffcc", "#00ff88", "#0a100c"⟩,
  ⟨"Violet", "#8800ff", "#5500aa", "#bb88ff", "#8800ff", "#0c0a12"⟩,
  ⟨"Blood", "#ff2222", "#aa0000", "#ff8888", "#ff2222", "#120a0a"⟩,
  ⟨"Solar", "#ffaa00", "#ff6600", "#ffdd44", "#ffaa00", "#12100a"⟩,
  ⟨"Arctic", "#aaeeff", "#66bbdd", "#ffffff", "#aaeeff", "#0a0e12"⟩,
  ⟨"Toxic", "#aaff00", "#66aa00", "#ddff66", "#aaff00", "#0c100a"⟩,
  ⟨"Sunset", "#ff6644", "#cc3366", "#ffaa88", "#ff6644", "#120c0a"⟩,
  ⟨"Midnight", "#4466ff", "#2233aa", "#8899ff", "#4466ff", "#0a0a14"⟩,
  ⟨"Chrome", "#cccccc", "#888888", "#ffffff", "#cccccc", "#101010"⟩,
  ⟨"Plasma", "#ff00ff", "#00ffff", "#ff88ff", "#ff00ff", "#0f0a10"⟩,
  ⟨"Neon", "#ff00aa", "#ffff00", "#00ffaa", "#ff00aa", "#0a0808"⟩,
  ⟨"Ocean", "#0066cc", "#004488", "#00aaff", "#0088ff", "#080a10"⟩,
  ⟨"Lava", "#ff4400", "#cc2200", "#ffaa00", "#ff6600", "#100808"⟩,
  ⟨"Void", "#6633aa", "#331166", "#9966ff", "#7744cc", "#08060c"⟩]

/-- The 12 face shapes of constants.ts. -/
def FACE_SHAPES : List String := [
  "oval", "angular", "hexagonal", "diamond", "shield", "heart",
  "octagonal", "rounded_square", "pentagon", "triangle", "pill", "star"]

/-- The 16 eye styles of constants.ts. -/
def EYE_STYLES : List String := [
  "holo_ring", "matrix_scan", "data_orb", "cyber_lens", "visor_bar", "split_iris",
  "compound", "target_lock", "energy_slit", "binary_dots", "spiral", "crosshair",
  "scanner_bar", "diamond_core", "pixel_grid", "flame_eye"]

/-- The 8 eye expressions of constants.ts. -/
def EYE_EXPRESSIONS : List String := [
  "neutral", "wide", "narrow", "tilt_up", "tilt_down", "asymmetric", "squint", "shock"]

/-- The 14 mouth styles of constants.ts. -/
def MOUTH_STYLES : List String := [
  "data_stream", "waveform", "minimal", "grid", "vent", "speaker", "binary",
  "smile_arc", "glyph", "silent", "pixel_smile", "teeth_grid", "equalizer", "circuit_mouth"]

/-- The 16 crown styles of constants.ts. -/
def CROWN_STYLES : List String := [
  "none", "antenna_single", "antenna_dual", "horns", "halo", "mohawk_data",
  "floating_orbs", "energy_spikes", "circuit_crown", "visor_top", "flames", "crystals",
  "crown_peaks", "satellite", "wings", "data_cloud"]

/-- The 12 forehead marks of constants.ts. -/
def FOREHEAD_MARKS : List String := [
  "none", "third_eye", "symbol_circle", "barcode", "circuit_node", "gem",
  "scanner_line", "binary_row", "hexagon", "omega", "cross", "infinity"]

/-- The 10 cheek patterns of constants.ts. -/
def CHEEK_PATTERNS : List String := [
  "none", "circuit_lines", "tribal_bars", "dots", "vents", "data_ports",
  "scars", "glyphs", "binary_stream", "wave_lines"]

/-- The 8 chin features of constants.ts. -/
def CHIN_FEATURES : List String := [
  "none", "vent", "light_bar", "beard_lines", "energy_core", "port", "speaker_grille", "data_jack"]

/-- The 10 side accessories of constants.ts. -/
def SIDE_ACCESSORIES : List String := [
  "none", "earpiece_left", "earpiece_right", "earpiece_both", "antenna_side",
  "blade", "coil", "jack", "wing_fins", "data_nodes"]

/-- The 6 background styles of constants.ts. -/
def BG_STYLES : List String := [
  "data_rain", "hex_grid", "circuit", "particles", "void", "matrix_code"]

/-- The 6 aura styles of constants.ts. -/
def AURA_STYLES : List String := [
  "glow", "double_ring", "glitch", "holographic", "pulse", "electric"]

/-- The matrix character set of constants.ts; `rng.choice` indexes into it.
All characters are in the basic multilingual plane, so its Lean length
equals the JavaScript `.length` (UTF-16 code units) of the source string. -/
def MATRIX_CHARS : List Char :=
  "アイウエオカキクケコサシスセソタチツテトナニヌネノハヒフヘホマミムメモヤユヨラリルレロワヲン0123456789ABCDEF".toList

/-- Embedding of `totalCombinations()` from constants.ts. -/
def totalCombinations : Nat :=
  PALETTES.length *
  FACE_SHAPES.length *
  EYE_STYLES.length *
  EYE_EXPRESSIONS.length *
  MOUTH_STYLES.length *
  CROWN_STYLES.length *
  FOREHEAD_MARKS.length *
  CHEEK_PATTERNS.length *
  CHIN_FEATURES.length *
  SIDE_ACCESSORIES.length *
  BG_STYLES.length *
  AURA_STYLES.length

/-! ## Parameter extraction (AgentFace.ts) -/

/-- The parameter record mirror of `FaceParams` from types.ts: twelve
categorical indices, eleven continuous values, `particleDensity`, and the
record's four seed fields. -/
structure FaceParams where
  paletteIdx : Nat
  faceShape : Nat
  eyeStyle : Nat
  eyeExpression : Nat
  mouthStyle : Nat
  crownStyle : Nat
  foreheadMark : Nat
  cheekPattern : Nat
  chinFeature : Nat
  sideAccessory : Nat
  bgStyle : Nat
  auraStyle : Nat
  faceWidth : ℚ
  faceHeight : ℚ
  eyeSize : ℚ
  eyeSpacing : ℚ
  mouthWidth : ℚ
  crownSize : ℚ
  markSize : ℚ
  accessorySize : ℚ
  glowIntensity : ℚ
  animationSpeed : ℚ
  glitchAmount : ℚ
  particleDensity : Nat
  patternSeed : Nat
  circuitSeed : Nat
  particleSeed : Nat
  effectSeed : Nat
deriving DecidableEq, Repr

/-- Embedding of `Math.floor` on an exact rational: since a rational is stored in
lowest terms with a positive denominator, its floor is the floor
division of numerator by denominator. Kept as an explicit `Int.fdiv`
so that the kernel can evaluate it. -/
def ratFloor (q : ℚ) : Int :=
  Int.fdiv q.num (q.den : Int)

/-- Embedding of `byteToRange(byteVal, minV, maxV)`:
`minV + (byteVal / 255) * (maxV - minV)`, as an exact rational. -/
def byteToRange (v : Nat) (lo hi : ℚ) : ℚ :=
  lo + (v : ℚ) / 255 * (hi - lo)

/-- Embedding of `AgentFace.extractParams()`; `b` is the 32-byte key,
out-of-range reads default to 0 (they do not occur on 32-byte keys). -/
def extractParams (b : List Nat) : FaceParams where
  paletteIdx := b.getD 0 0 % PALETTES.length
  faceShape := b.getD 1 0 % FACE_SHAPES.length
  eyeStyle := b.getD 2 0 % EYE_STYLES.length
  eyeExpression := b.getD 3 0 % EYE_EXPRESSIONS.length
  mouthStyle := b.getD 4 0 % MOUTH_STYLES.length
  crownStyle := b.getD 5 0 % CROWN_STYLES.length
  foreheadMark := b.getD 6 0 % FOREHEAD_MARKS.length
  cheekPattern := b.getD 7 0 % CHEEK_PATTERNS.length
  chinFeature := b.getD 8 0 % CHIN_FEATURES.length
  sideAccessory := b.getD 9 0 % SIDE_ACCESSORIES.length
  bgStyle := b.getD 10 0 % BG_STYLES.length
  auraStyle := b.getD 11 0 % AURA_STYLES.length
  faceWidth := byteToRange (b.getD 12 0) 50 70
  faceHeight := byteToRange (b.getD 13 0) 65 85
  eyeSize := byteToRange (b.getD 14 0) 10 20
  eyeSpacing := byteToRange (b.getD 15 0) 22 38
  mouthWidth := byteToRange (b.getD 16 0) 18 40
  crownSize := byteToRange (b.getD 17 0) (7/10) (13/10)
  markSize := byteToRange (b.getD 18 0) (7/10) (13/10)
  accessorySize := byteToRange (b.getD 19 0) (8/10) (12/10)
  glowIntensity := byteToRange (b.getD 20 0) (5/10) 1
  animationSpeed := byteToRange (b.getD 21 0) (15/10) (35/10)
  glitchAmount := byteToRange (b.getD 22 0) (1/10) (3/10)
  particleDensity := (ratFloor (byteToRange (b.getD 23 0) 8 20)).toNat
  patternSeed := b.getD 24 0 * 256 + b.getD 25 0
  circuitSeed := b.getD 26 0 * 256 + b.getD 27 0
  particleSeed := b.getD 28 0 * 256 + b.getD 29 0
  effectSeed := b.getD 30 0 * 256 + b.getD 31 0

/-- The list of all seed fields of a `FaceParams`, in declaration order;
per types.ts the record has exactly these four. -/
def seedFields (p : FaceParams) : List Nat :=
  [p.patternSeed, p.circuitSeed, p.particleSeed, p.effectSeed]

/-! ## SeededRandom (AgentFace.ts): MT19937 matching CPython seeding

State of the Mersenne Twister: the 624-word array `mt` and the cursor
`mti`. All words are kept below 2^32 by the same `>>> 0` coercions as the
source. -/

/-- The Mersenne Twister state: `mt` has 624 words, `mti` is the index of
the next word to emit (624 forces a regeneration). -/
structure RNG where
  mt : List Nat
  mti : Nat
deriving DecidableEq, Repr

/-- Continuation applied to a natural number forced to a literal first;
the seeding loops pass every carried word through this so that the kernel
evaluates them iteratively instead of as one nested thunk chain. -/
def seqNat {α : Sort u} (n : Nat) (f : Nat → α) : α :=
  match n with
  | 0 => f 0
  | Nat.succ m => f (Nat.succ m)

/-- The loop of `initGenrand`: remaining count, current index `i`, the
word `mt[i-1]`, and the words so far in reverse. -/
def initGenrandGo : Nat → Nat → Nat → List Nat → List Nat
  | 0, _, _, acc => acc.reverse
  | k + 1, i, prev, acc =>
    seqNat ((Nat.xor prev (prev >>> 30) * 1812433253 + i) % M32) fun v =>
      initGenrandGo k (i + 1) v (v :: acc)

/-- Embedding of `initGenrand(seed)`: `mt[0] = seed >>> 0` and
`mt[i] = (1812433253 * (mt[i-1] ^ (mt[i-1] >>> 30)) + i) >>> 0` for
`i = 1 .. 623` (the source computes the product by 16-bit halves, which
equals the product mod 2^32); ends with `mti = 624`. -/
def initGenrand (seed : Nat) : RNG :=
  seqNat (seed % M32) fun s0 => ⟨initGenrandGo 623 1 s0 [s0], 624⟩

/-- The update of the first `init_by_array` pass:
`mt[i] = ((mt[i] ^ ((mt[i-1] ^ (mt[i-1] >>> 30)) * 1664525)) + key[j] + j) >>> 0`
(the source computes the product by 16-bit halves, equal to the product
mod 2^32). `prev` is `mt[i-1]`, `old` the not-yet-rewritten `mt[i]`. -/
def ibaStep1 (key : List Nat) (prev old _i j : Nat) : Nat :=
  let s := Nat.xor prev (prev >>> 30)
  (Nat.xor old ((s * 1664525) % M32) + key.getD j 0 + j) % M32

/-- The update of the second `init_by_array` pass:
`mt[i] = ((mt[i] ^ ((mt[i-1] ^ (mt[i-1] >>> 30)) * 1566083941)) - i) >>> 0`. -/
def ibaStep2 (prev old i : Nat) : Nat :=
  let s := Nat.xor prev (prev >>> 30)
  ((((Nat.xor old ((s * 1566083941) % M32)) : Int) - (i : Int)) % (M32 : Int)).toNat

/-- The in-place sweep shared by the two `init_by_array` passes, written
as a sequential traversal so that every state is a plain list: `frontRev`
holds the positions below `i` in reverse (its head is `mt[i-1]`), `back`
holds the untouched positions from `i` up, and the first argument counts
the remaining iterations. When `i` reaches 623 the source's wrap runs
inside the same iteration: `mt[0] = mt[623]; i = 1`, with the freshly
rewritten words becoming the array the wrapped sweep continues on. -/
def ibaRun (step : Nat → Nat → Nat → Nat → Nat) (keyLen : Nat) :
    Nat → List Nat → List Nat → Nat → Nat → List Nat × List Nat × Nat × Nat
  | 0, frontRev, back, i, j => (frontRev, back, i, j)
  | k + 1, frontRev, back, i, j =>
    seqNat (step (frontRev.headD 0) (back.headD 0) i j) fun v =>
    seqNat (if j + 1 ≥ keyLen then 0 else j + 1) fun j2 =>
    if i + 1 ≥ 624 then
      ibaRun step keyLen k [v] ((v :: frontRev).reverse).tail 1 j2
    else
      seqNat (i + 1) fun i2 =>
      ibaRun step keyLen k (v :: frontRev) back.tail i2 j2

/-- Embedding of `initByArray(initKey)`: seed with 19650218, run the
first pass `max 624 initKey.length` times from `i = 1, j = 0`, continue
with the second pass for 623 iterations, then set `mt[0] = 0x80000000`. -/
def initByArray (initKey : List Nat) : RNG :=
  let r0 := initGenrand 19650218
  let s1 := ibaRun (ibaStep1 initKey) initKey.length (max 624 initKey.length)
    [r0.mt.headD 0] r0.mt.tail 1 0
  let s2 := ibaRun (fun prev old i _ => ibaStep2 prev old i) initKey.length 623
    s1.1 s1.2.1 s1.2.2.1 s1.2.2.2
  let mt := s2.1.reverse ++ s2.2.1
  ⟨2147483648 % M32 :: mt.tail, 624⟩

/-- The `mag01` table of the twist: `[0x0, MATRIX_A]` indexed by `y & 1`. -/
def mag01 (y : Nat) : Nat :=
  if y % 2 = 1 then 0x9908b0df else 0

/-- One twisted word: `next ^ (y >>> 1) ^ mag01[y & 1]` where
`y = (a & UPPER_MASK) | (b & LOWER_MASK)`. -/
def twistW (a b next : Nat) : Nat :=
  let y := (a &&& 0x80000000) ||| (b &&& 0x7fffffff)
  Nat.xor (Nat.xor next (y >>> 1)) (mag01 y)

/-- The full state regeneration of `genrandInt32` (the `mti >= N` branch),
written functionally: the source updates `mt` in place, so indices below
the cursor read already-regenerated words; `p1` is `kk < N - M`, the fold
is `N - M <= kk < N - 1`, and the final word is `kk = N - 1`. -/
def twist (mt : List Nat) : List Nat :=
  let p1 := (List.range 227).map fun k =>
    twistW (mt.getD k 0) (mt.getD (k + 1) 0) (mt.getD (k + 397) 0)
  let p2 := (List.range 396).foldl
    (fun acc idx =>
      let k := 227 + idx
      acc ++ [twistW (mt.getD k 0) (mt.getD (k + 1) 0) (acc.getD (k - 227) 0)])
    p1
  p2 ++ [twistW (mt.getD 623 0) (p2.getD 0 0) (p2.getD 396 0)]

/-- Embedding of `genrandInt32()`: regenerate when the cursor reaches 624,
emit the next word through the tempering transform, and finish with the
source's `>>> 0`. -/
def RNG.genrand (r : RNG) : Nat × RNG :=
  let mt := if r.mti ≥ 624 then twist r.mt else r.mt
  let mti := if r.mti ≥ 624 then 0 else r.mti
  let y := mt.getD mti 0
  let y := Nat.xor y (y >>> 11)
  let y := Nat.xor y ((y <<< 7) &&& 0x9d2c5680)
  let y := Nat.xor y ((y <<< 15) &&& 0xefc60000)
  let y := Nat.xor y (y >>> 18)
  (y % M32, ⟨mt, mti + 1⟩)

/-- Embedding of `random()`: draws word `a` then word `b` and returns
`(a >>> 5) * 67108864 + (b >>> 6)` divided by 9007199254740992 (= 2^53);
the double-precision computation is exact because the numerator is an
integer below 2^53, so the rational value is the JavaScript value. -/
def RNG.random (r : RNG) : ℚ × RNG :=
  let a := r.genrand
  let b := a.2.genrand
  ((((a.1 >>> 5) * 67108864 + (b.1 >>> 6) : Nat) : ℚ) / 9007199254740992, b.2)

/-- Embedding of `randint(min, max)`: `min + floor(random() * (max - min + 1))`. -/
def RNG.randint (r : RNG) (lo hi : Int) : Int × RNG :=
  let q := r.random
  (lo + ratFloor (q.1 * ((hi - lo + 1 : Int) : ℚ)), q.2)

/-- Embedding of `uniform(min, max)`: `min + (max - min) * random()`. -/
def RNG.uniform (r : RNG) (lo hi : ℚ) : ℚ × RNG :=
  let q := r.random
  (lo + (hi - lo) * q.1, q.2)

/-- Embedding of `choice(array)` restricted to the chosen index
`floor(random() * array.length)`; the emitted element is `array[idx]`, a
pure function of the index, so traces record the index. -/
def RNG.choiceIdx (r : RNG) (len : Nat) : Nat × RNG :=
  let q := r.random
  ((ratFloor (q.1 * (len : ℚ))).toNat, q.2)

/-- Big-endian 32-bit words of a natural number, as in the large-seed
branch of `seed()` (`unshift(temp >>> 0 & 0xffffffff); temp /= 2^32`);
`[0]` for zero. The first argument is fuel, always sufficient at `n`. -/
def natToWordsBEGo : Nat → Nat → List Nat → List Nat
  | 0, _, acc => acc
  | fuel + 1, n, acc =>
    if n = 0 then acc else natToWordsBEGo fuel (n / M32) (n % M32 :: acc)

/-- Big-endian word decomposition used by `seed()` for values above 2^32 - 1. -/
def natToWordsBE (n : Nat) : List Nat :=
  if n = 0 then [0] else natToWordsBEGo n n []

/-- Embedding of `seed(seed)`: values representable in 32 bits go through
`initGenrand`, larger values through `initByArray` on their big-endian
32-bit words. Every in-repository call passes a 16-bit parameter seed. -/
def RNG.seedNat (s : Nat) : RNG :=
  if s ≤ 4294967295 then initGenrand s else initByArray (natToWordsBE s)

/-- Leading-zero-word trimming of `seedFromBytes`: drop zero words while
more than one word remains. -/
def trimZeroWords : List Nat → List Nat
  | [] => []
  | [x] => [x]
  | 0 :: rest => trimZeroWords rest
  | l => l

/-- Embedding of `seedFromBytes(bytes)`: right-align the bytes in a buffer
padded to a multiple of 4, read big-endian 32-bit words, trim leading zero
words (keeping at least one), and feed the words to `initByArray`. -/
def seedFromBytes (bytes : List Nat) : RNG :=
  let padLen := ((bytes.length + 3) / 4) * 4
  let padded := List.replicate (padLen - bytes.length) 0 ++ bytes
  let words := (List.range (padLen / 4)).map fun i =>
    (((padded.getD (4 * i) 0) <<< 24) ||| ((padded.getD (4 * i + 1) 0) <<< 16) |||
      ((padded.getD (4 * i + 2) 0) <<< 8) ||| padded.getD (4 * i + 3) 0)
  initByArray (trimZeroWords words)

/-! ## BLAKE3 (modelled from the spec)

The specification derives the fingerprint, the short-key digest and the
AgentID checksum from BLAKE3, implemented by the repository's Python
module `crypto/hashing.py`, which is not under src/. The definitions
below follow the published BLAKE3 function, restricted to inputs of at
most 64 bytes — a single chunk consisting of a single block, compressed
with the flags CHUNK_START, CHUNK_END and ROOT. -/

/-- Modelled from the spec: the BLAKE3 initialisation vector (the SHA-256
IV words), used as the input chaining value of the only block. -/
def blake3IV : List Nat :=
  [0x6a09e667, 0xbb67ae85, 0x3c6ef372, 0xa54ff53a,
   0x510e527f, 0x9b05688c, 0x1f83d9ab, 0x5be0cd19]

/-- The 32-bit right rotation. -/
def rotr32 (x n : Nat) : Nat :=
  ((x >>> n) ||| (x <<< (32 - n))) % M32

/-- Modelled from the spec: the BLAKE3 quarter-round `G` acting on state
positions `a b c d` with message words `x y`. -/
def blake3G (st : List Nat) (a b c d : Nat) (x y : Nat) : List Nat :=
  let va := (st.getD a 0 + st.getD b 0 + x) % M32
  let vd := rotr32 (Nat.xor (st.getD d 0) va) 16
  let vc := (st.getD c 0 + vd) % M32
  let vb := rotr32 (Nat.xor (st.getD b 0) vc) 12
  let va := (va + vb + y) % M32
  let vd := rotr32 (Nat.xor vd va) 8
  let vc := (vc + vd) % M32
  let vb := rotr32 (Nat.xor vb vc) 7
  ((((st.set a va).set b vb).set c vc).set d vd)

/-- Modelled from the spec: the BLAKE3 message-word permutation applied
between rounds. -/
def blake3Permute (m : List Nat) : List Nat :=
  [m.getD 2 0, m.getD 6 0, m.getD 3 0, m.getD 10 0,
   m.getD 7 0, m.getD 0 0, m.getD 4 0, m.getD 13 0,
   m.getD 1 0, m.getD 11 0, m.getD 12 0, m.getD 5 0,
   m.getD 9 0, m.getD 14 0, m.getD 15 0, m.getD 8 0]

/-- Modelled from the spec: one BLAKE3 round — four column `G` calls then
four diagonal `G` calls. -/
def blake3Round (st m : List Nat) : List Nat :=
  let st := blake3G st 0 4 8 12 (m.getD 0 0) (m.getD 1 0)
  let st := blake3G st 1 5 9 13 (m.getD 2 0) (m.getD 3 0)
  let st := blake3G st 2 6 10 14 (m.getD 4 0) (m.getD 5 0)
  let st := blake3G st 3 7 11 15 (m.getD 6 0) (m.getD 7 0)
  let st := blake3G st 0 5 10 15 (m.getD 8 0) (m.getD 9 0)
  let st := blake3G st 1 6 11 12 (m.getD 10 0) (m.getD 11 0)
  let st := blake3G st 2 7 8 13 (m.getD 12 0) (m.getD 13 0)
  blake3G st 3 4 9 14 (m.getD 14 0) (m.getD 15 0)

/-- Modelled from the spec: the BLAKE3 compression function, returning the
full 16-word output state (the digest reads `v[i] ^ v[i + 8]`). -/
def blake3Compress (h m : List Nat) (counter blockLen flags : Nat) : List Nat :=
  let v0 := h.take 8 ++ blake3IV.take 4 ++
    [counter % M32, (counter / M32) % M32, blockLen, flags]
  let r := (List.range 7).foldl
    (fun st _ => (blake3Round st.1 st.2, blake3Permute st.2)) (v0, m)
  r.1

/-- Little-endian 32-bit words of a byte list padded with zeros to 64
bytes (BLAKE3 block padding for a short final block). -/
def bytesToWordsLE (data : List Nat) : List Nat :=
  (List.range 16).map fun i =>
    (data.getD (4 * i) 0) ||| ((data.getD (4 * i + 1) 0) <<< 8) |||
      ((data.getD (4 * i + 2) 0) <<< 16) ||| ((data.getD (4 * i + 3) 0) <<< 24)

/-- Modelled from the spec: the 32-byte BLAKE3 digest of an input of at
most 64 bytes: compress the single zero-padded block with counter 0,
block length `data.length`, and flags CHUNK_START | CHUNK_END | ROOT = 11;
the digest is the little-endian bytes of `v[i] ^ v[i + 8]` for `i < 8`. -/
def blake3Digest32 (data : List Nat) : List Nat :=
  let v := blake3Compress blake3IV (bytesToWordsLE data) 0 data.length 11
  ((List.range 8).map fun i =>
    let w := Nat.xor (v.getD i 0) (v.getD (i + 8) 0)
    [w % 256, (w >>> 8) % 256, (w >>> 16) % 256, (w >>> 24) % 256]).flatten

/-! ## Renderer PRNG dataflow (`toSVG` and the draw routines)

Every draw routine of AgentFace.ts builds its SVG text from three kinds
of data only: string constants, values computed purely from `FaceParams`
and the fixed centre `CENTER = 100`, and values drawn from the instance
PRNG `this.rng` (`randint`, `uniform`, `choice`). The embedding keeps the
PRNG dataflow of every routine exactly — each `seed` installation and
each draw, in source order — and records per subcomponent the `RVal`
trace of every PRNG-drawn quantity that the routine interpolates into its
output (for `choice`, the chosen index, from which the emitted element is
a fixed lookup). The remaining text of each subcomponent is a fixed
function of the parameters and the options, so two renders of the same
face with the same options emit identical strings exactly when their
traces here are equal. -/

/-- A value drawn from the PRNG and interpolated into the SVG output:
a `randint` result, a `uniform` result, or a `choice` index. -/
inductive RVal where
  | rint : Int → RVal
  | runi : ℚ → RVal
  | rchoice : Nat → RVal
deriving DecidableEq, Repr

/-- Embedding of `AgentFace.CANVAS_SIZE`. -/
def CANVAS_SIZE : Int := 200

/-- PRNG trace of `drawBackground`: `data_rain`, `circuit`, `particles`
and `matrix_code` install their seed and then draw; `hex_grid` and `void`
never touch the PRNG. -/
def drawBackgroundR (p : FaceParams) (rng : RNG) : List RVal × RNG :=
  let bgStyle := BG_STYLES.getD p.bgStyle ""
  if bgStyle = "data_rain" then
    (List.range p.particleDensity).foldl
      (fun st _ =>
        let (x, r1) := st.2.randint 5 (CANVAS_SIZE - 5)
        let (delay, r2) := r1.uniform 0 5
        let (duration, r3) := r2.uniform 3 6
        let (ch, r4) := r3.choiceIdx MATRIX_CHARS.length
        (st.1 ++ [.rint x, .runi delay, .runi duration, .rchoice ch], r4))
      ([], RNG.seedNat p.particleSeed)
  else if bgStyle = "circuit" then
    (List.range 12).foldl
      (fun st _ =>
        let (x1, r1) := st.2.randint 0 CANVAS_SIZE
        let (y1, r2) := r1.randint 0 CANVAS_SIZE
        let (c1, r3) := r2.choiceIdx 4
        let (c2, r4) := r3.choiceIdx 4
        (st.1 ++ [.rint x1, .rint y1, .rchoice c1, .rchoice c2], r4))
      ([], RNG.seedNat p.circuitSeed)
  else if bgStyle = "particles" then
    (List.range (p.particleDensity * 2)).foldl
      (fun st _ =>
        let (x, r1) := st.2.randint 5 (CANVAS_SIZE - 5)
        let (y, r2) := r1.randint 5 (CANVAS_SIZE - 5)
        let (size, r3) := r2.uniform 1 3
        let (delay, r4) := r3.uniform 0 3
        (st.1 ++ [.rint x, .rint y, .runi size, .runi delay], r4))
      ([], RNG.seedNat p.particleSeed)
  else if bgStyle = "matrix_code" then
    (List.range (p.particleDensity + 8)).foldl
      (fun st _ =>
        let (x, r1) := st.2.randint 5 (CANVAS_SIZE - 5)
        let (delay, r2) := r1.uniform 0 4
        let (duration, r3) := r2.uniform (5/2) 5
        let (colHeight, r4) := r3.randint 3 6
        let inner := (List.range colHeight.toNat).foldl
          (fun st2 _ =>
            let (ch, r5) := st2.2.choiceIdx MATRIX_CHARS.length
            (st2.1 ++ [RVal.rchoice ch], r5))
          (([] : List RVal), r4)
        (st.1 ++ [.rint x, .runi delay, .runi duration, .rint colHeight] ++ inner.1,
          inner.2))
      ([], RNG.seedNat p.particleSeed)
  else
    ([], rng)

/-- PRNG trace of `drawAura`: the `electric` branch installs
`effect_seed` but its six bolts use only trigonometry on the fixed
radius, drawing nothing; every other aura is PRNG-free. -/
def drawAuraR (p : FaceParams) (rng : RNG) : List RVal × RNG :=
  if AURA_STYLES.getD p.auraStyle "" = "electric" then
    ([], RNG.seedNat p.effectSeed)
  else ([], rng)

/-- The source routine `drawFace` (and `getFaceShapeElement`) never touches the PRNG. -/
def drawFaceR (_p : FaceParams) (rng : RNG) : List RVal × RNG := ([], rng)

/-- The source routine `drawForeheadMark` never touches the PRNG (its variants use
`pattern_seed` arithmetic directly, not the stream). -/
def drawForeheadMarkR (_p : FaceParams) (rng : RNG) : List RVal × RNG := ([], rng)

/-- The source routine `drawEyes` never touches the PRNG. -/
def drawEyesR (_p : FaceParams) (rng : RNG) : List RVal × RNG := ([], rng)

/-- The source routine `drawCheeks` never touches the PRNG. -/
def drawCheeksR (_p : FaceParams) (rng : RNG) : List RVal × RNG := ([], rng)

/-- PRNG trace of `drawMouth`: `waveform` and `equalizer` install
`pattern_seed` and then draw; all other mouths are PRNG-free. -/
def drawMouthR (p : FaceParams) (rng : RNG) : List RVal × RNG :=
  let style := MOUTH_STYLES.getD p.mouthStyle ""
  if style = "waveform" then
    (List.range 10).foldl
      (fun st _ =>
        let (v, r1) := st.2.uniform 3 8
        (st.1 ++ [RVal.runi v], r1))
      ([], RNG.seedNat p.patternSeed)
  else if style = "equalizer" then
    (List.range 8).foldl
      (fun st _ =>
        let (h, r1) := st.2.uniform 3 10
        (st.1 ++ [RVal.runi h], r1))
      ([], RNG.seedNat p.patternSeed)
  else ([], rng)

/-- The source routine `drawChin` never touches the PRNG. -/
def drawChinR (_p : FaceParams) (rng : RNG) : List RVal × RNG := ([], rng)

/-- The source routine `drawSideAccessories` never touches the PRNG. -/
def drawSideAccessoriesR (_p : FaceParams) (rng : RNG) : List RVal × RNG := ([], rng)

/-- PRNG trace of `drawCrown`: `data_cloud` installs `effect_seed` and
then draws; `mohawk_data` and `flames` draw from the PRNG in whatever
state it happens to be, installing no seed; every other crown is
PRNG-free. -/
def drawCrownR (p : FaceParams) (rng : RNG) : List RVal × RNG :=
  let crown := CROWN_STYLES.getD p.crownStyle ""
  if crown = "mohawk_data" then
    (List.range 7).foldl
      (fun st _ =>
        let (ch, r1) := st.2.choiceIdx MATRIX_CHARS.length
        (st.1 ++ [RVal.rchoice ch], r1))
      ([], rng)
  else if crown = "flames" then
    (List.range 7).foldl
      (fun st _ =>
        let (u, r1) := st.2.uniform (3/10) (7/10)
        (st.1 ++ [RVal.runi u], r1))
      ([], rng)
  else if crown = "data_cloud" then
    let size := 15 * p.crownSize
    (List.range 8).foldl
      (fun st _ =>
        let (dx, r1) := st.2.uniform 0 40
        let (dy, r2) := r1.uniform (-(size * 3 / 10)) (size * 3 / 10)
        let (ch, r3) := r2.choiceIdx MATRIX_CHARS.length
        (st.1 ++ [RVal.runi dx, RVal.runi dy, RVal.rchoice ch], r3))
      ([], RNG.seedNat p.effectSeed)
  else ([], rng)

/-- PRNG trace of `toSVG`: the subcomponents in emission order (defs and
animations are constant text and contribute nothing), threading the
instance PRNG through each, with the crown drawn before the face for
`halo`, `flames`, `data_cloud` and after it for the other non-`none`
styles. The result lists each subcomponent's trace in order, paired with
the PRNG state the render leaves behind in the instance. -/
def toSVGR (p : FaceParams) (animated : Bool) (rng : RNG) : List (List RVal) × RNG :=
  let crown := CROWN_STYLES.getD p.crownStyle ""
  let bg := drawBackgroundR p rng
  let au := drawAuraR p bg.2
  let preFlag := crown = "halo" ∨ crown = "flames" ∨ crown = "data_cloud"
  let pre := if preFlag then drawCrownR p au.2 else ([], au.2)
  let fa := drawFaceR p pre.2
  let fo := drawForeheadMarkR p fa.2
  let ey := drawEyesR p fo.2
  let chk := drawCheeksR p ey.2
  let mo := drawMouthR p chk.2
  let chn := drawChinR p mo.2
  let sa := drawSideAccessoriesR p chn.2
  let post := if crown ≠ "none" ∧ ¬preFlag then drawCrownR p sa.2 else ([], sa.2)
  let _ := animated
  ([bg.1, au.1, pre.1, fa.1, fo.1, ey.1, chk.1, mo.1, chn.1, sa.1, post.1], post.2)

/-! ## The AgentFace instance -/

/-- An AgentFace instance: the 32-byte key, the extracted parameters and
the mutable PRNG field `this.rng`, made explicit. -/
structure Face where
  keyBytes : List Nat
  params : FaceParams
  rng : RNG
deriving DecidableEq, Repr

/-- The constructor's key normalisation: inputs shorter than 32 bytes are
digested to 32 bytes by `simpleHash`; otherwise the first 32 bytes are
kept. -/
def mkKeyBytes (input : List Nat) : List Nat :=
  if input.length < 32 then simpleHash input 32 else input.take 32

/-- The remainder of the constructor: extract the parameters and seed the
instance PRNG from the first 8 key bytes. -/
def faceOfKey (k : List Nat) : Face :=
  ⟨k, extractParams k, seedFromBytes (k.take 8)⟩

/-- Embedding of `new AgentFace(keyBytes)`. -/
def mkFace (input : List Nat) : Face :=
  faceOfKey (mkKeyBytes input)

/-- Embedding of a `toSVG` call on an instance: the render trace together
with the instance as the call leaves it (its PRNG advanced). -/
def toSVGFace (f : Face) (animated : Bool) : List (List RVal) × Face :=
  let r := toSVGR f.params animated f.rng
  (r.1, { f with rng := r.2 })

/-- The lowercase hexadecimal digits. -/
def hexChars : List Char := "0123456789abcdef".toList

/-- Two-digit lowercase hex of a byte (`toString(16).padStart(2, "0")`). -/
def toHex2 (b : Nat) : String :=
  String.mk [hexChars.getD (b / 16) 'x', hexChars.getD (b % 16) 'x']

/-- Embedding of `fingerprint()`: the hex of the 4-byte `simpleHash`
digest of the key bytes. -/
def fingerprintF (f : Face) : String :=
  String.join ((simpleHash f.keyBytes 4).map toHex2)

/-- The hex of the first 4 bytes of the BLAKE3 digest — what the
specification says the fingerprint is. -/
def blake3Hex4 (data : List Nat) : String :=
  String.join (((blake3Digest32 data).take 4).map toHex2)

/-- Embedding of the key comparison in `similarity`:
`this.keyBytes.every((b, i) => b === other.keyBytes[i])`. -/
def keyEq (a b : List Nat) : Bool :=
  (List.range a.length).all fun i => a.getD i 0 == b.getD i 0

/-- Embedding of the `diffs` count in `similarity`: how many of the
twelve categorical indices differ. -/
def diffsCount (p q : FaceParams) : Nat :=
  ([decide (p.paletteIdx ≠ q.paletteIdx),
    decide (p.faceShape ≠ q.faceShape),
    decide (p.eyeStyle ≠ q.eyeStyle),
    decide (p.eyeExpression ≠ q.eyeExpression),
    decide (p.mouthStyle ≠ q.mouthStyle),
    decide (p.crownStyle ≠ q.crownStyle),
    decide (p.foreheadMark ≠ q.foreheadMark),
    decide (p.cheekPattern ≠ q.cheekPattern),
    decide (p.chinFeature ≠ q.chinFeature),
    decide (p.sideAccessory ≠ q.sideAccessory),
    decide (p.bgStyle ≠ q.bgStyle),
    decide (p.auraStyle ≠ q.auraStyle)]).count true

/-- Embedding of `similarity(other)`: 0 for byte-identical keys,
otherwise `min(1, diffs / 12)` as an exact rational (the JavaScript
division by 12 is the same real value up to final-bit rounding, which
the settled statements do not depend on). -/
def similarityF (f g : Face) : ℚ :=
  if keyEq f.keyBytes g.keyBytes then 0
  else min 1 ((diffsCount f.params g.params : ℚ) / 12)

/-- The exposed feature record of the `features` getter. -/
structure AgentFaceFeatures where
  palette : Palette
  faceShape : String
  eyeStyle : String
  eyeExpression : String
  mouthStyle : String
  crownStyle : String
  foreheadMark : String
  cheekPattern : String
  chinFeature : String
  sideAccessory : String
  bgStyle : String
  auraStyle : String
deriving DecidableEq, Repr

/-- Embedding of the `features` getter: each categorical index looked up
in its table (indices are always in range by construction). -/
def featuresF (f : Face) : AgentFaceFeatures where
  palette := PALETTES.getD f.params.paletteIdx default
  faceShape := FACE_SHAPES.getD f.params.faceShape ""
  eyeStyle := EYE_STYLES.getD f.params.eyeStyle ""
  eyeExpression := EYE_EXPRESSIONS.getD f.params.eyeExpression ""
  mouthStyle := MOUTH_STYLES.getD f.params.mouthStyle ""
  crownStyle := CROWN_STYLES.getD f.params.crownStyle ""
  foreheadMark := FOREHEAD_MARKS.getD f.params.foreheadMark ""
  cheekPattern := CHEEK_PATTERNS.getD f.params.cheekPattern ""
  chinFeature := CHIN_FEATURES.getD f.params.chinFeature ""
  sideAccessory := SIDE_ACCESSORIES.getD f.params.sideAccessory ""
  bgStyle := BG_STYLES.getD f.params.bgStyle ""
  auraStyle := AURA_STYLES.getD f.params.auraStyle ""

/-! ## Concrete inputs used by the counterexample evaluations -/

/-- A 32-byte key with crown `flames` (b[5] = 10), background `hex_grid`
(b[10] = 1), aura `glow` and mouth `data_stream`: during a render of this
face no routine installs a seed before the flames crown draws. -/
def flamesKey : List Nat :=
  [0, 0, 0, 0, 0, 10, 0, 0, 0, 0, 1, 0, 0, 0, 0, 0,
   0, 0, 0, 0, 0, 0, 0, 0, 0, 0, 0, 0, 0, 0, 0, 0]

/-- A 32-byte key with crown `mohawk_data` (b[5] = 5). -/
def mohawkKey : List Nat :=
  [0, 0, 0, 0, 0, 5, 0, 0, 0, 0, 0, 0, 0, 0, 0, 0,
   0, 0, 0, 0, 0, 0, 0, 0, 0, 0, 0, 0, 0, 0, 0, 0]

/-! ## Theorems settling the claims -/

section Claims

attribute [local semireducible] Rat.mul Rat.add Rat.sub Rat.inv Rat.ofScientific

set_option maxRecDepth 1000000

/-- C5: `totalCombinations()` returns exactly 2,378,170,368,000, and this
value is the product of the lengths of the twelve categorical tables. -/
theorem totalCombinations_spec :
    totalCombinations = 2378170368000 ∧
    totalCombinations =
      PALETTES.length * FACE_SHAPES.length * EYE_STYLES.length *
        EYE_EXPRESSIONS.length * MOUTH_STYLES.length * CROWN_STYLES.length *
        FOREHEAD_MARKS.length * CHEEK_PATTERNS.length * CHIN_FEATURES.length *
        SIDE_ACCESSORIES.length * BG_STYLES.length * AURA_STYLES.length :=
  ⟨by decide, rfl⟩

/-- C6: on every 32-byte key the twelve extracted categorical indices are
the corresponding bytes reduced modulo the normative table sizes, and the
twelve tables have exactly the sizes 20, 12, 16, 8, 14, 16, 12, 10, 8,
10, 6, 6. -/
theorem categorical_indices_spec (b : List Nat) (_h : b.length = 32) :
    ((extractParams b).paletteIdx = b.getD 0 0 % 20 ∧
      (extractParams b).faceShape = b.getD 1 0 % 12 ∧
      (extractParams b).eyeStyle = b.getD 2 0 % 16 ∧
      (extractParams b).eyeExpression = b.getD 3 0 % 8 ∧
      (extractParams b).mouthStyle = b.getD 4 0 % 14 ∧
      (extractParams b).crownStyle = b.getD 5 0 % 16 ∧
      (extractParams b).foreheadMark = b.getD 6 0 % 12 ∧
      (extractParams b).cheekPattern = b.getD 7 0 % 10 ∧
      (extractParams b).chinFeature = b.getD 8 0 % 8 ∧
      (extractParams b).sideAccessory = b.getD 9 0 % 10 ∧
      (extractParams b).bgStyle = b.getD 10 0 % 6 ∧
      (extractParams b).auraStyle = b.getD 11 0 % 6) ∧
    (PALETTES.length = 20 ∧ FACE_SHAPES.length = 12 ∧
      EYE_STYLES.length = 16 ∧ EYE_EXPRESSIONS.length = 8 ∧
      MOUTH_STYLES.length = 14 ∧ CROWN_STYLES.length = 16 ∧
      FOREHEAD_MARKS.length = 12 ∧ CHEEK_PATTERNS.length = 10 ∧
      CHIN_FEATURES.length = 8 ∧ SIDE_ACCESSORIES.length = 10 ∧
      BG_STYLES.length = 6 ∧ AURA_STYLES.length = 6) :=
  ⟨⟨rfl, rfl, rfl, rfl, rfl, rfl, rfl, rfl, rfl, rfl, rfl, rfl⟩,
    ⟨rfl, rfl, rfl, rfl, rfl, rfl, rfl, rfl, rfl, rfl, rfl, rfl⟩⟩

/-- Witness for C6 at the all-sevens key. -/
theorem categorical_indices_spec_witness :
    (List.replicate 32 7).length = 32 ∧
    (extractParams (List.replicate 32 7)).paletteIdx =
      (List.replicate 32 7).getD 0 0 % 20 :=
  ⟨by decide, (categorical_indices_spec (List.replicate 32 7) (by decide)).1.1⟩

/-- C4 counterexample: the extracted parameter record of the zero key has
exactly four seed fields, not five. -/
theorem seedFields_not_five :
    ¬ (seedFields (extractParams (List.replicate 32 0))).length = 5 := by
  decide

/-- C4 amended: the parameter record ends with four 16-bit seeds
(pattern, circuit, particle, effect), each formed from the big-endian
byte pair starting at b[24 + 2i]. -/
theorem seeds_spec (b : List Nat) (_h : b.length = 32)
    (h2 : ∀ i < 32, b.getD i 0 < 256) :
    seedFields (extractParams b) =
      [256 * b.getD 24 0 + b.getD 25 0, 256 * b.getD 26 0 + b.getD 27 0,
        256 * b.getD 28 0 + b.getD 29 0, 256 * b.getD 30 0 + b.getD 31 0] ∧
    ∀ s ∈ seedFields (extractParams b), s < 65536 := by
  have e24 := h2 24 (by norm_num)
  have e25 := h2 25 (by norm_num)
  have e26 := h2 26 (by norm_num)
  have e27 := h2 27 (by norm_num)
  have e28 := h2 28 (by norm_num)
  have e29 := h2 29 (by norm_num)
  have e30 := h2 30 (by norm_num)
  have e31 := h2 31 (by norm_num)
  constructor
  · simp only [seedFields, extractParams, List.cons.injEq, and_true]
    omega
  · intro s hs
    simp only [seedFields, extractParams, List.mem_cons, List.not_mem_nil,
      or_false] at hs
    rcases hs with rfl | rfl | rfl | rfl <;> omega

/-- Witness for C4's amended theorem at the all-twos key. -/
theorem seeds_spec_witness :
    (List.replicate 32 2).length = 32 ∧
    seedFields (extractParams (List.replicate 32 2)) =
      [256 * (List.replicate 32 2).getD 24 0 + (List.replicate 32 2).getD 25 0,
        256 * (List.replicate 32 2).getD 26 0 + (List.replicate 32 2).getD 27 0,
        256 * (List.replicate 32 2).getD 28 0 + (List.replicate 32 2).getD 29 0,
        256 * (List.replicate 32 2).getD 30 0 + (List.replicate 32 2).getD 31 0] :=
  ⟨by decide, (seeds_spec (List.replicate 32 2) (by decide) (by decide)).1⟩

/-- C3: at the zero key the code's fingerprint is the hex of the 4-byte
`simpleHash` digest, "00000000", while the hex of the first 4 bytes of
the BLAKE3 digest of the same 32 bytes is "2ada83c1" — the fingerprint is
not BLAKE3-derived as the specification states. -/
theorem fingerprint_not_blake3 :
    fingerprintF (mkFace (List.replicate 32 0)) = "00000000" ∧
    blake3Hex4 (List.replicate 32 0) = "2ada83c1" ∧
    fingerprintF (mkFace (List.replicate 32 0)) ≠ blake3Hex4 (List.replicate 32 0) :=
  ⟨by decide, by decide, by decide⟩

/-- C8: the constructor digests the empty (length < 32) input with
`simpleHash`, producing 32 zero bytes, and derives everything from that
digest; the BLAKE3 digest of the empty input (which the specification
prescribes) is different. -/
theorem short_key_hash_not_blake3 :
    mkKeyBytes [] = List.replicate 32 0 ∧
    mkFace [] = faceOfKey (simpleHash [] 32) ∧
    blake3Digest32 [] ≠ List.replicate 32 0 :=
  ⟨by decide, rfl, by decide⟩

/-- C1: at `flamesKey` a second `toSVG` call on the same instance renders
differently from the first: the flames crown draws from the instance PRNG
without installing any seed, and no earlier subcomponent of this face
reseeds it, so the state left by call 1 changes call 2's output. -/
theorem toSVG_same_instance_differs :
    (toSVGFace (mkFace flamesKey) true).1 ≠
      (toSVGFace (toSVGFace (mkFace flamesKey) true).2 true).1 := by
  decide

/-- C2: the `mohawk_data` crown installs no seed, so its emitted
characters depend on the PRNG history: drawing it right after `seed(0)`
and after `seed(0)` followed by one consumed draw yields different
traces. -/
theorem drawCrown_mohawk_history_dependent :
    (drawCrownR (extractParams mohawkKey) (RNG.seedNat 0)).1 ≠
      (drawCrownR (extractParams mohawkKey) ((RNG.seedNat 0).random).2).1 := by
  decide

/-- Every word the generator emits is below 2^32 (the source's final
`>>> 0`). -/
theorem genrand_lt (r : RNG) : r.genrand.1 < M32 := by
  show _ % M32 < M32
  exact Nat.mod_lt _ (by norm_num [M32])

/-- C7: every `random()` draw consumes exactly two successive words of
the generator — `a` first, then `b` — and returns
`((a >>> 5) * 2^26 + (b >>> 6)) / 2^53`, a value in [0, 1). -/
theorem random_spec (s : RNG) :
    RNG.random s =
      ((((s.genrand.1 >>> 5) * 2 ^ 26 + (s.genrand.2.genrand.1 >>> 6) : Nat) : ℚ)
          / 2 ^ 53,
        s.genrand.2.genrand.2) ∧
    0 ≤ (RNG.random s).1 ∧ (RNG.random s).1 < 1 := by
  have key : RNG.random s =
      ((((s.genrand.1 >>> 5) * 67108864 + (s.genrand.2.genrand.1 >>> 6) : Nat) : ℚ)
          / 9007199254740992,
        s.genrand.2.genrand.2) := rfl
  have h5 : s.genrand.1 >>> 5 < 134217728 := by
    have ha := genrand_lt s
    rw [Nat.shiftRight_eq_div_pow]
    simp only [M32] at ha
    omega
  have h6 : s.genrand.2.genrand.1 >>> 6 < 67108864 := by
    have hb := genrand_lt s.genrand.2
    rw [Nat.shiftRight_eq_div_pow]
    simp only [M32] at hb
    omega
  have hnum : (s.genrand.1 >>> 5) * 67108864 + (s.genrand.2.genrand.1 >>> 6)
      < 9007199254740992 := by omega
  refine ⟨?_, ?_, ?_⟩
  · rw [key]
    norm_num
  · rw [key]
    positivity
  · rw [key]
    rw [div_lt_one (by norm_num)]
    exact_mod_cast hnum

/-- A 32-byte input passes through the constructor's key normalisation
unchanged. -/
theorem mkKeyBytes_len32 (a : List Nat) (ha : a.length = 32) :
    mkKeyBytes a = a := by
  unfold mkKeyBytes
  rw [if_neg (by omega), ← ha, List.take_length]

/-- The source's key comparison accepts equal lists. -/
theorem keyEq_self (a : List Nat) : keyEq a a = true := by
  simp [keyEq]

/-- On two 32-byte lists the source's key comparison is list equality. -/
theorem keyEq_true_iff (a b : List Nat) (ha : a.length = 32)
    (hb : b.length = 32) : keyEq a b = true ↔ a = b := by
  constructor
  · intro h
    apply List.ext_getElem (by rw [ha, hb])
    intro i h1 h2
    have hm := List.all_eq_true.mp h i (List.mem_range.mpr (by omega))
    have := of_decide_eq_true hm
    rwa [List.getD_eq_getElem a 0 h1, List.getD_eq_getElem b 0 h2] at this
  · rintro rfl
    exact keyEq_self a

/-- The categorical difference count never exceeds the twelve positions
compared. -/
theorem diffsCount_le_twelve (p q : FaceParams) : diffsCount p q ≤ 12 := by
  unfold diffsCount
  exact le_trans (List.count_le_length _ _) (by simp)

/-- A parameter record differs from itself in no position. -/
theorem diffsCount_self (p : FaceParams) : diffsCount p p = 0 := by
  simp [diffsCount]

/-- The categorical difference count is symmetric. -/
theorem diffsCount_comm (p q : FaceParams) : diffsCount p q = diffsCount q p := by
  have h : ∀ x y : Nat, decide (x ≠ y) = decide (y ≠ x) := fun x y =>
    decide_eq_decide.mpr ne_comm
  unfold diffsCount
  rw [h p.paletteIdx, h p.faceShape, h p.eyeStyle, h p.eyeExpression,
    h p.mouthStyle, h p.crownStyle, h p.foreheadMark, h p.cheekPattern,
    h p.chinFeature, h p.sideAccessory, h p.bgStyle, h p.auraStyle]

/-- C9: on faces built from 32-byte keys, `similarity` is 0 on a face and
itself, stays within [0, 1], is symmetric, and equals the number of
differing categorical indices divided by 12. -/
theorem similarity_spec (a b : List Nat) (ha : a.length = 32)
    (hb : b.length = 32) :
    similarityF (mkFace a) (mkFace a) = 0 ∧
    0 ≤ similarityF (mkFace a) (mkFace b) ∧
    similarityF (mkFace a) (mkFace b) ≤ 1 ∧
    similarityF (mkFace a) (mkFace b) = similarityF (mkFace b) (mkFace a) ∧
    similarityF (mkFace a) (mkFace b) =
      (diffsCount (mkFace a).params (mkFace b).params : ℚ) / 12 := by
  have hka : (mkFace a).keyBytes = a := by
    simp [mkFace, faceOfKey, mkKeyBytes_len32 a ha]
  have hkb : (mkFace b).keyBytes = b := by
    simp [mkFace, faceOfKey, mkKeyBytes_len32 b hb]
  have hd12 : (diffsCount (mkFace a).params (mkFace b).params : ℚ) / 12 ≤ 1 := by
    rw [div_le_one (by norm_num)]
    exact_mod_cast diffsCount_le_twelve _ _
  refine ⟨?_, ?_, ?_, ?_, ?_⟩
  · simp [similarityF, keyEq_self]
  · unfold similarityF
    split
    · norm_num
    · positivity
  · unfold similarityF
    split
    · norm_num
    · exact min_le_left _ _
  · by_cases hab : a = b
    · subst hab
      rfl
    · have h1 : keyEq (mkFace a).keyBytes (mkFace b).keyBytes = false := by
        rw [hka, hkb]
        exact Bool.eq_false_iff.mpr fun hc =>
          hab ((keyEq_true_iff a b ha hb).mp hc)
      have h2 : keyEq (mkFace b).keyBytes (mkFace a).keyBytes = false := by
        rw [hka, hkb]
        exact Bool.eq_false_iff.mpr fun hc =>
          hab ((keyEq_true_iff b a hb ha).mp hc).symm
      rw [similarityF, similarityF, h1, h2, if_neg Bool.false_ne_true,
        if_neg Bool.false_ne_true, diffsCount_comm]
  · by_cases hab : a = b
    · subst hab
      simp [similarityF, keyEq_self, diffsCount_self]
    · have h1 : keyEq (mkFace a).keyBytes (mkFace b).keyBytes = false := by
        rw [hka, hkb]
        exact Bool.eq_false_iff.mpr fun hc =>
          hab ((keyEq_true_iff a b ha hb).mp hc)
      rw [similarityF, h1, if_neg Bool.false_ne_true]
      exact min_eq_right hd12

/-- Witness for C9 at two concrete 32-byte keys. -/
theorem similarity_spec_witness :
    (List.replicate 32 1).length = 32 ∧ (List.replicate 32 4).length = 32 ∧
    similarityF (mkFace (List.replicate 32 1)) (mkFace (List.replicate 32 1)) = 0 :=
  ⟨by decide, by decide,
    (similarity_spec (List.replicate 32 1) (List.replicate 32 4)
      (by decide) (by decide)).1⟩

/-- C10: an input longer than 32 bytes builds the same instance as its
32-byte prefix, so every exposed operation — the render, the
fingerprint, the features, and similarity on either side — agrees on the
two. -/
theorem prefix32_spec (input : List Nat) (h : 32 < input.length) :
    mkFace input = mkFace (input.take 32) ∧
    fingerprintF (mkFace input) = fingerprintF (mkFace (input.take 32)) ∧
    (∀ animated, toSVGFace (mkFace input) animated =
        toSVGFace (mkFace (input.take 32)) animated) ∧
    featuresF (mkFace input) = featuresF (mkFace (input.take 32)) ∧
    ∀ g, similarityF (mkFace input) g = similarityF (mkFace (input.take 32)) g ∧
      similarityF g (mkFace input) = similarityF g (mkFace (input.take 32)) := by
  have hk : mkKeyBytes input = mkKeyBytes (input.take 32) := by
    unfold mkKeyBytes
    rw [if_neg (by omega), if_neg (by rw [List.length_take]; omega),
      List.take_take, Nat.min_self]
  have hface : mkFace input = mkFace (input.take 32) := congrArg faceOfKey hk
  exact ⟨hface, by rw [hface], fun animated => by rw [hface], by rw [hface],
    fun g => ⟨by rw [hface], by rw [hface]⟩⟩

/-- Witness for C10 at a 33-byte input. -/
theorem prefix32_spec_witness :
    32 < (List.replicate 33 9).length ∧
    mkFace (List.replicate 33 9) = mkFace ((List.replicate 33 9).take 32) :=
  ⟨by decide, (prefix32_spec (List.replicate 33 9) (by decide)).1⟩

end Claims

end Sigaid
